import Mathlib

set_option linter.unusedVariables false

/-!
Shallow embedding of the ofelia core: the container-run job driver
(image resolution, container acquisition, start, watch loop, exit-code
classification, log retrieval, cleanup), the scheduler lifecycle
(AddJob / Start / Stop), and the bare job's atomic running counter.

The docker client collaborator is modelled as a record of operation
results; each embedded function additionally reports which collaborator
operations it invoked, so that claims about operations being attempted
or skipped are statable.
-/

namespace Ofelia

/-- Errors surfaced by the core and by the modelled docker client.
Sentinel errors (`ErrLocalImageNotFound`, `ErrUnexpected`,
`ErrMaxTimeRunning`) are bare constructors; `fmt.Errorf` wrappings
(`error pulling image %q: %s`, `error creating exec: %s`,
`error connecting container to network: %s`, `error non-zero exit code: %d`)
are constructors carrying what was formatted in; raw client errors are
`client`. -/
inductive Err where
  | localImageNotFound
  | unexpected
  | maxTimeRunning
  | nonZeroExit (code : Int)
  | pullFailed (image : String) (cause : Err)
  | createFailed (cause : Err)
  | connectFailed (cause : Err)
  | client (msg : String)
  deriving DecidableEq, Repr

/-- Go `strconv.ParseBool`: accepts exactly the twelve literal strings
below, anything else is a parse error (`none`). -/
def parseBool : String → Option Bool
  | "1" | "t" | "T" | "true" | "TRUE" | "True" => some true
  | "0" | "f" | "F" | "false" | "FALSE" | "False" => some false
  | _ => none

/-- `b, _ := strconv.ParseBool(s)`: the parse error is discarded, so the
boolean zero value `false` is kept whenever parsing fails. -/
def parseBoolDiscard (s : String) : Bool :=
  (parseBool s).getD false

/-- `docker.State`, restricted to the two fields the watch loop reads. -/
structure ContainerState where
  Running : Bool
  ExitCode : Int
  deriving DecidableEq, Repr

/-- `docker.Container`, restricted to the field the driver reads. -/
structure Container where
  ID : String
  deriving DecidableEq, Repr

/-- `docker.Network`, restricted to the field the driver reads. -/
structure Network where
  ID : String
  deriving DecidableEq, Repr

/-- The docker client collaborator: one result per operation the
container-run job consumes.  The nth inspection inside the watch loop
may give a different answer each time, hence a function of the poll
index; every other operation is invoked at most once per run. -/
structure DockerClient where
  /-- raw result of `Client.PullImage` (before `pullImage` wraps it) -/
  pullImageResult : Option Err
  /-- result of `Client.ListImages` under the find-local-image filter -/
  listImagesResult : Except Err (List String)
  /-- result of `Client.CreateContainer` -/
  createContainerResult : Except Err Container
  /-- result of `Client.InspectContainerWithOptions` as used by `getContainer` -/
  inspectContainerResult : Except Err Container
  /-- result of `Client.StartContainer` -/
  startContainerResult : Option Err
  /-- result of the nth `Client.InspectContainerWithOptions` in the watch loop -/
  inspectState : Nat → Except Err ContainerState
  /-- result of `Client.FilteredListNetworks` -/
  listNetworksResult : Except Err (List Network)
  /-- result of `Client.ConnectNetwork`, keyed by network id -/
  connectNetworkResult : String → Option Err
  /-- result of `Client.Logs` -/
  logsResult : Option Err
  /-- result of `Client.RemoveContainer` -/
  removeContainerResult : Option Err

/-- The `RunJob` fields the driver reads (`BareJob` fields that the
driver does not touch are omitted; `Command`, `User`, `TTY`, `Volume`
only feed the container creation request and are kept for fidelity). -/
structure RunJob where
  Command : String
  User : String
  TTY : Bool
  Delete : String
  Pull : String
  Image : String
  Network : String
  Container : String
  Volume : List String
  deriving DecidableEq, Repr

/-- `RunJob.searchLocalImage`: list local images under the name filter;
a client error propagates, any match count other than exactly one is the
`ErrLocalImageNotFound` sentinel. -/
def searchLocalImage (j : RunJob) (cl : DockerClient) : Option Err :=
  match cl.listImagesResult with
  | .error e => some e
  | .ok imgs => if imgs.length ≠ 1 then some .localImageNotFound else none

/-- `RunJob.pullImage`: pull the image, wrapping a client failure as
`error pulling image %q: %s`. -/
def pullImage (j : RunJob) (cl : DockerClient) : Option Err :=
  match cl.pullImageResult with
  | some e => some (.pullFailed j.Image e)
  | none => none

/-- Which of the two resolution operations were invoked. -/
structure ResolveTrace where
  pullAttempted : Bool
  searchAttempted : Bool
  deriving DecidableEq, Repr

/-- The image-resolution closure inside `RunJob.Run` (entered only when
an image is named and no container id is given).  With pull=true a pull
is tried first and success returns immediately; otherwise the local
search is tried; with pull=false and the search failing with the
`ErrLocalImageNotFound` sentinel a fallback pull is tried; finally the
pull error, if any, is returned in preference to the search error. -/
def resolveImage (j : RunJob) (cl : DockerClient) : Option Err × ResolveTrace :=
  let pull := parseBoolDiscard j.Pull
  if pull then
    match pullImage j cl with
    | none => (none, ⟨true, false⟩)
    | some pullError =>
      match searchLocalImage j cl with
      | none => (none, ⟨true, true⟩)
      | some _ => (some pullError, ⟨true, true⟩)
  else
    match searchLocalImage j cl with
    | none => (none, ⟨false, true⟩)
    | some searchErr =>
      if searchErr = .localImageNotFound then
        match pullImage j cl with
        | none => (none, ⟨true, true⟩)
        | some pullError => (some pullError, ⟨true, true⟩)
      else (some searchErr, ⟨false, true⟩)

/-- `watchDuration` in milliseconds (`time.Millisecond * 100`). -/
def watchDuration : Nat := 100

/-- `maxProcessDuration` in milliseconds (`time.Hour * 24`). -/
def maxProcessDuration : Nat := 24 * 60 * 60 * 1000

/-- The `switch s.ExitCode` at the end of `RunJob.watchContainer`. -/
def classifyExitCode (code : Int) : Option Err :=
  if code = 0 then none
  else if code = -1 then some .unexpected
  else some (.nonZeroExit code)

/-- The loop body of `RunJob.watchContainer`: `inspect` is the client's
inspect-container operation (the only operation the loop consumes), `n`
the poll index, `r` the elapsed time accumulated so far.  Each iteration
first adds `watchDuration`; past `maxProcessDuration` it fails with
`ErrMaxTimeRunning` before inspecting; otherwise the container is
inspected, an inspection error propagates, and a no-longer-running
container breaks out into the exit-code switch. -/
def watchLoop (inspect : Nat → Except Err ContainerState) (n r : Nat) : Option Err :=
  let r' := r + watchDuration
  if h : maxProcessDuration < r' then some .maxTimeRunning
  else
    match inspect n with
    | .error e => some e
    | .ok c =>
      if c.Running then watchLoop inspect (n + 1) r'
      else classifyExitCode c.ExitCode
termination_by maxProcessDuration + watchDuration - r
decreasing_by simp only [watchDuration, maxProcessDuration] at *; omega

/-- `RunJob.watchContainer`: run the watch loop from zero elapsed time,
polling the client's inspect operation. -/
def watchContainer (j : RunJob) (cl : DockerClient) : Option Err :=
  watchLoop cl.inspectState 0 0

/-- `RunJob.deleteContainer`: parse the `Delete` policy flag discarding
the parse error; when it is not (parsed as) true, return nil without
calling `RemoveContainer`.  The boolean reports whether
`RemoveContainer` was invoked. -/
def deleteContainer (j : RunJob) (cl : DockerClient) : Option Err × Bool :=
  if !(parseBoolDiscard j.Delete) then (none, false)
  else (cl.removeContainerResult, true)

/-- The network-connection loop in `RunJob.buildContainer`: `connect` is
the client's connect-to-network operation (the only operation the loop
consumes).  Connect the container to each listed network in order,
aborting with a wrapped error on the first failure.  The list reports
which networks a connection was attempted for. -/
def connectNetworks (connect : String → Option Err) (cid : String) :
    List Network → Option Err × List String
  | [] => (none, [])
  | nw :: rest =>
    match connect nw.ID with
    | some e => (some (.connectFailed e), [nw.ID])
    | none =>
      let (res, tr) := connectNetworks connect cid rest
      (res, nw.ID :: tr)

/-- `RunJob.buildContainer`: create the container (wrapping a creation
failure as `error creating exec: %s`); when a network name is
configured, list networks filtered by that name and — only if the
listing itself succeeded — connect the container to each match, where a
connection failure aborts with an error.  A failed listing is silently
skipped.  The second component reports which networks a connection was
attempted for. -/
def buildContainer (j : RunJob) (cl : DockerClient) :
    Except Err Container × List String :=
  match cl.createContainerResult with
  | .error e => (.error (.createFailed e), [])
  | .ok c =>
    if j.Network ≠ "" then
      match cl.listNetworksResult with
      | .ok networks =>
        match connectNetworks cl.connectNetworkResult c.ID networks with
        | (some e, tr) => (.error e, tr)
        | (none, tr) => (.ok c, tr)
      | .error _ => (.ok c, [])
    else (.ok c, [])

/-- `RunJob.getContainer`: inspect the configured container id. -/
def getContainer (j : RunJob) (cl : DockerClient) : Except Err Container :=
  cl.inspectContainerResult

/-- The two `ctx.Warn` messages `RunJob.Run` can emit. -/
inductive Warning where
  | logsFailed (cause : Err)
  | deleteFailed (cause : Err)
  deriving DecidableEq, Repr

/-- Which collaborator operations a whole run invoked, and the warnings
it emitted. -/
structure RunTrace where
  pullAttempted : Bool
  searchAttempted : Bool
  connectAttempts : List String
  logsAttempted : Bool
  deleteInvoked : Bool
  removeAttempted : Bool
  warnings : List Warning
  deriving DecidableEq, Repr

/-- The empty run trace. -/
def emptyTrace : RunTrace :=
  ⟨false, false, [], false, false, false, []⟩

/-- The acquisition phase of `RunJob.Run`: when an image is named and no
container id is given, resolve the image and create a container;
otherwise inspect the configured container id. -/
def acquireContainer (j : RunJob) (cl : DockerClient) :
    Except Err Container × ResolveTrace × List String :=
  if j.Image ≠ "" ∧ j.Container = "" then
    match resolveImage j cl with
    | (some e, rt) => (.error e, rt, [])
    | (none, rt) =>
      let (bc, conn) := buildContainer j cl
      (bc, rt, conn)
  else (getContainer j cl, ⟨false, false⟩, [])

/-- `RunJob.Run`: acquisition (resolution + creation when an image is
named and no container id is given, otherwise inspection of the given
id), then start, then the watch loop; on the `ErrUnexpected` sentinel
the driver returns at once; otherwise logs are fetched (failure
downgraded to a warning) and, when no container id was given, the
deferred `deleteContainer` runs (failure downgraded to a warning); the
watch-loop error is what the driver returns. -/
def RunJob.run (j : RunJob) (cl : DockerClient) : Option Err × RunTrace :=
  match acquireContainer j cl with
  | (.error e, rt, conn) =>
    (some e, { emptyTrace with
                 pullAttempted := rt.pullAttempted
                 searchAttempted := rt.searchAttempted
                 connectAttempts := conn })
  | (.ok c, rt, conn) =>
    let base := { emptyTrace with
                    pullAttempted := rt.pullAttempted
                    searchAttempted := rt.searchAttempted
                    connectAttempts := conn }
    match cl.startContainerResult with
    | some e => (some e, base)
    | none =>
      let werr := watchContainer j cl
      if werr = some .unexpected then (werr, base)
      else
        let logWarns : List Warning :=
          match cl.logsResult with
          | some le => [.logsFailed le]
          | none => []
        if j.Container = "" then
          let (delErr, removed) := deleteContainer j cl
          let delWarns : List Warning :=
            match delErr with
            | some de => [.deleteFailed de]
            | none => []
          (werr, { base with
                     logsAttempted := true
                     deleteInvoked := true
                     removeAttempted := removed
                     warnings := logWarns ++ delWarns })
        else
          (werr, { base with logsAttempted := true, warnings := logWarns })

/-! ## Scheduler lifecycle -/

/-- Scheduler lifecycle errors (`ErrAlreadyStarted`, `ErrAlreadyStopped`,
`ErrEmptyScheduler`, `ErrEmptySchedule`) plus the error a failing
`cron.AddJob` (schedule parse) would return. -/
inductive SchedErr where
  | alreadyStarted
  | alreadyStopped
  | emptyScheduler
  | emptySchedule
  | cronParse (schedule : String)
  deriving DecidableEq, Repr

/-- A registered job, as the scheduler sees it: its schedule string and
its middleware list.  Middlewares are opaque to the scheduler, hence the
type parameter. -/
structure Job (α : Type) where
  Schedule : String
  Middlewares : List α
  deriving DecidableEq, Repr

/-- Modelled from the spec: `middlewareContainer.Use` is not among the
source files (only its callers are); per the spec, global middlewares
"are appended to each Job's own middleware list", so `Use` is modelled
as list append. -/
def Job.use {α : Type} (j : Job α) (ms : List α) : Job α :=
  { j with Middlewares := j.Middlewares ++ ms }

/-- The scheduler state the lifecycle operations touch: the job
registry, the global middlewares, and the running flag. -/
structure Scheduler (α : Type) where
  Jobs : List (Job α)
  Middlewares : List α
  isRunning : Bool
  deriving DecidableEq, Repr

/-- `Scheduler.AddJob`: reject an empty schedule string with the
`ErrEmptySchedule` sentinel; propagate a cron registration failure
(`cronAccepts` models the external cron parser); otherwise append the
job to the registry.  Returns the error alongside the updated state. -/
def Scheduler.addJob {α : Type} (cronAccepts : String → Bool)
    (s : Scheduler α) (j : Job α) : Option SchedErr × Scheduler α :=
  if j.Schedule = "" then (some .emptySchedule, s)
  else if cronAccepts j.Schedule then
    (none, { s with Jobs := s.Jobs ++ [j] })
  else (some (.cronParse j.Schedule), s)

/-- `Scheduler.mergeMiddlewares`: `j.Use(s.Middlewares()...)` for every
registered job. -/
def Scheduler.mergeMiddlewares {α : Type} (s : Scheduler α) : Scheduler α :=
  { s with Jobs := s.Jobs.map (fun j => j.use s.Middlewares) }

/-- `Scheduler.Start`: `ErrAlreadyStarted` when already running (checked
first), `ErrEmptyScheduler` on an empty registry; otherwise merge the
global middlewares into every job and flip the running flag on. -/
def Scheduler.start {α : Type} (s : Scheduler α) : Option SchedErr × Scheduler α :=
  if s.isRunning then (some .alreadyStarted, s)
  else if s.Jobs.length = 0 then (some .emptyScheduler, s)
  else (none, { s.mergeMiddlewares with isRunning := true })

/-- `Scheduler.Stop`: `ErrAlreadyStopped` when not running; otherwise
flip the running flag off (the drain wait and the cron stop do not touch
the modelled state). -/
def Scheduler.stop {α : Type} (s : Scheduler α) : Option SchedErr × Scheduler α :=
  if !s.isRunning then (some .alreadyStopped, s)
  else (none, { s with isRunning := false })

/-- `Scheduler.IsRunning`. -/
def Scheduler.isRunningQ {α : Type} (s : Scheduler α) : Bool :=
  s.isRunning

/-! ## BareJob running counter -/

/-- Wrap an integer into the signed 32-bit range, as Go's `int32`
addition does on overflow. -/
def wrap32 (x : Int) : Int :=
  (x + 2 ^ 31) % 2 ^ 32 - 2 ^ 31

/-- `BareJob`, restricted to its atomically updated running counter
(a Go `int32`). -/
structure BareJob where
  running : Int
  deriving DecidableEq, Repr

/-- `BareJob.Running`: atomic load of the counter. -/
def BareJob.Running (j : BareJob) : Int :=
  j.running

/-- `BareJob.NotifyStart`: atomic add of `1` (with `int32` wraparound). -/
def BareJob.NotifyStart (j : BareJob) : BareJob :=
  ⟨wrap32 (j.running + 1)⟩

/-- `BareJob.NotifyStop`: atomic add of `-1` (with `int32` wraparound). -/
def BareJob.NotifyStop (j : BareJob) : BareJob :=
  ⟨wrap32 (j.running - 1)⟩

/-- One counter notification, for reasoning about whole sequences of
runs. -/
inductive CounterOp where
  | start
  | stop
  deriving DecidableEq, Repr

/-- Apply one notification to the counter. -/
def applyOp (j : BareJob) : CounterOp → BareJob
  | .start => j.NotifyStart
  | .stop => j.NotifyStop

/-- Apply a sequence of notifications in order. -/
def runOps (j : BareJob) : List CounterOp → BareJob
  | [] => j
  | op :: rest => runOps (applyOp j op) rest

/-- Number of `NotifyStart` notifications in a sequence. -/
def countStarts : List CounterOp → Nat
  | [] => 0
  | .start :: rest => countStarts rest + 1
  | .stop :: rest => countStarts rest

/-- Number of `NotifyStop` notifications in a sequence. -/
def countStops : List CounterOp → Nat
  | [] => 0
  | .start :: rest => countStops rest
  | .stop :: rest => countStops rest + 1

/-! ## Theorems -/

/-- C6: for every scheduler state and cron collaborator, `AddJob` with a
job whose schedule string is empty returns the `ErrEmptySchedule`
sentinel and leaves the scheduler (in particular its job registry)
unchanged. -/
theorem addJob_empty_schedule {α : Type} (cronAccepts : String → Bool)
    (s : Scheduler α) (j : Job α) (h : j.Schedule = "") :
    s.addJob cronAccepts j = (some .emptySchedule, s) := by
  simp [Scheduler.addJob, h]

/-- Witness for C6 at a concrete scheduler and job. -/
theorem addJob_empty_schedule_witness :
    Scheduler.addJob (fun _ => true) (⟨[], [3], false⟩ : Scheduler Nat) ⟨"", []⟩ =
      (some .emptySchedule, ⟨[], [3], false⟩) :=
  addJob_empty_schedule (fun _ => true) ⟨[], [3], false⟩ ⟨"", []⟩ rfl

/-- C7: `Start` on a running scheduler returns `ErrAlreadyStarted`
(taking precedence over the empty-registry check, which is not even
reached), `Start` on a stopped scheduler with an empty registry returns
`ErrEmptyScheduler`, and `Stop` on a non-running scheduler returns
`ErrAlreadyStopped`; in each case the scheduler state (running flag and
registry) is returned unchanged. -/
theorem scheduler_lifecycle_errors {α : Type} (s : Scheduler α) :
    (s.isRunning = true → s.start = (some .alreadyStarted, s)) ∧
    (s.isRunning = false → s.Jobs = [] → s.start = (some .emptyScheduler, s)) ∧
    (s.isRunning = false → s.stop = (some .alreadyStopped, s)) := by
  refine ⟨fun h => ?_, fun h hj => ?_, fun h => ?_⟩
  · simp [Scheduler.start, h]
  · simp [Scheduler.start, h, hj]
  · simp [Scheduler.stop, h]

/-- Witness for C7 at concrete schedulers. -/
theorem scheduler_lifecycle_errors_witness :
    (⟨[], [], true⟩ : Scheduler Nat).start = (some .alreadyStarted, ⟨[], [], true⟩) ∧
    (⟨[], [], false⟩ : Scheduler Nat).start = (some .emptyScheduler, ⟨[], [], false⟩) ∧
    (⟨[], [], false⟩ : Scheduler Nat).stop = (some .alreadyStopped, ⟨[], [], false⟩) :=
  ⟨(scheduler_lifecycle_errors _).1 rfl,
   (scheduler_lifecycle_errors _).2.1 rfl rfl,
   (scheduler_lifecycle_errors _).2.2 rfl⟩

/-- `wrap32` is the identity on the signed 32-bit range. -/
theorem wrap32_eq_self {x : Int} (h1 : -(2 ^ 31) ≤ x) (h2 : x < 2 ^ 31) :
    wrap32 x = x := by
  unfold wrap32
  omega

/-- Running the counter over a notification sequence in which, at every
point, the stops seen so far are covered by `c` plus the starts seen so
far, computes the plain difference (no wraparound occurs). -/
theorem runOps_spec : ∀ (ops : List CounterOp) (c : Int),
    (∀ n : Nat, (countStops (ops.take n) : Int) ≤ c + countStarts (ops.take n)) →
    c + ops.length < 2 ^ 31 →
    (runOps ⟨c⟩ ops).running = c + countStarts ops - countStops ops := by
  intro ops
  induction ops with
  | nil =>
    intro c hpre hlen
    simp [runOps, countStarts, countStops]
  | cons op rest ih =>
    intro c hpre hlen
    have h0 : (0 : Int) ≤ c := by
      have := hpre 0
      simpa [countStarts, countStops] using this
    cases op with
    | start =>
      have hlen' : c + 1 + rest.length < 2 ^ 31 := by
        simp [List.length_cons] at hlen
        omega
      have hw : wrap32 (c + 1) = c + 1 :=
        wrap32_eq_self (by omega) (by omega)
      have hpre' : ∀ n : Nat,
          (countStops (rest.take n) : Int) ≤ (c + 1) + countStarts (rest.take n) := by
        intro n
        have := hpre (n + 1)
        simp [List.take_succ_cons, countStarts, countStops] at this
        omega
      have := ih (c + 1) hpre' hlen'
      simp [runOps, applyOp, BareJob.NotifyStart, hw, this, countStarts, countStops]
      omega
    | stop =>
      have h1 : (1 : Int) ≤ c := by
        have := hpre 1
        simpa [List.take_succ_cons, countStarts, countStops] using this
      have hlen' : c - 1 + rest.length < 2 ^ 31 := by
        simp [List.length_cons] at hlen
        omega
      have hw : wrap32 (c - 1) = c - 1 :=
        wrap32_eq_self (by omega) (by omega)
      have hpre' : ∀ n : Nat,
          (countStops (rest.take n) : Int) ≤ (c - 1) + countStarts (rest.take n) := by
        intro n
        have := hpre (n + 1)
        simp [List.take_succ_cons, countStarts, countStops] at this
        omega
      have := ih (c - 1) hpre' hlen'
      simp [runOps, applyOp, BareJob.NotifyStop, hw, this, countStarts, countStops]
      omega

/-- C8: `NotifyStop` after `NotifyStart` restores the counter for any
in-range value (so `Running()` after a completed run equals its value
before the run), and for any notification sequence of bounded length in
which every stop is covered by a prior start (prefix-wise), the counter
started from `0` equals starts minus stops and never goes below `0` at
any prefix. -/
theorem running_counter_paired (j : BareJob) (ops : List CounterOp) :
    (-(2 ^ 31) ≤ j.running → j.running < 2 ^ 31 →
      j.NotifyStart.NotifyStop.Running = j.Running) ∧
    ((∀ n : Nat, countStops (ops.take n) ≤ countStarts (ops.take n)) →
      ops.length < 2 ^ 31 →
      (runOps ⟨0⟩ ops).running = (countStarts ops : Int) - countStops ops ∧
      ∀ n : Nat, 0 ≤ (runOps ⟨0⟩ (ops.take n)).running) := by
  constructor
  · intro h1 h2
    simp only [BareJob.NotifyStart, BareJob.NotifyStop, BareJob.Running, wrap32]
    omega
  · intro hpair hlen
    have key : ∀ l : List CounterOp,
        (∀ n : Nat, countStops (l.take n) ≤ countStarts (l.take n)) →
        l.length < 2 ^ 31 →
        (runOps ⟨0⟩ l).running = (countStarts l : Int) - countStops l := by
      intro l hp hl
      have := runOps_spec l 0 (fun n => by
        have := hp n
        omega) (by omega)
      simpa using this
    refine ⟨key ops hpair hlen, fun n => ?_⟩
    have hp' : ∀ m : Nat,
        countStops ((ops.take n).take m) ≤ countStarts ((ops.take n).take m) := by
      intro m
      rw [List.take_take]
      exact hpair (min m n)
    have hl' : (ops.take n).length < 2 ^ 31 := by
      rw [List.length_take]
      omega
    have := key (ops.take n) hp' hl'
    have hfin := hp' (ops.take n).length
    rw [List.take_length] at hfin
    rw [this]
    omega

/-- Witness for C8 at a concrete counter value and a concrete paired
sequence of notifications. -/
theorem running_counter_paired_witness :
    ((⟨5⟩ : BareJob).NotifyStart.NotifyStop.Running = (⟨5⟩ : BareJob).Running) ∧
    (runOps ⟨0⟩ [CounterOp.start, CounterOp.stop]).running =
      (countStarts [CounterOp.start, CounterOp.stop] : Int) -
        countStops [CounterOp.start, CounterOp.stop] := by
  constructor
  · exact (running_counter_paired ⟨5⟩ []).1 (by decide) (by decide)
  · refine ((running_counter_paired ⟨0⟩ [CounterOp.start, CounterOp.stop]).2 ?_ (by decide)).1
    intro n
    match n with
    | 0 => decide
    | 1 => decide
    | Nat.succ (Nat.succ k) => simp [List.take, countStarts, countStops]

/-- C9: the pull/delete policy flags go through `strconv.ParseBool` with
the parse error discarded, so every unparsable flag value — the empty
string included — behaves as `false`; in particular, with an unparsable
`Delete` value, `deleteContainer` returns nil without invoking
`RemoveContainer`. -/
theorem policy_flag_parse_discard (s : String) (j : RunJob) (cl : DockerClient)
    (hs : parseBool s = none) (hd : parseBool j.Delete = none) :
    parseBoolDiscard s = false ∧
    parseBoolDiscard "" = false ∧
    deleteContainer j cl = (none, false) := by
  refine ⟨by simp [parseBoolDiscard, hs], by decide, ?_⟩
  simp [deleteContainer, parseBoolDiscard, hd]

/-- A docker client whose operations all succeed; the watched container
stops immediately with exit code 0. -/
def baseClient : DockerClient where
  pullImageResult := none
  listImagesResult := .ok ["sha256:abc"]
  createContainerResult := .ok ⟨"c1"⟩
  inspectContainerResult := .ok ⟨"c1"⟩
  startContainerResult := none
  inspectState := fun _ => .ok ⟨false, 0⟩
  listNetworksResult := .ok []
  connectNetworkResult := fun _ => none
  logsResult := none
  removeContainerResult := none

/-- A job that names an image and no existing container. -/
def sampleJob : RunJob :=
  ⟨"echo hi", "root", false, "true", "true", "busybox", "", "", []⟩

/-- The same job with the pull policy off. -/
def sampleJobNoPull : RunJob :=
  { sampleJob with Pull := "false" }

/-- A client where the registry is unreachable and no local image
matches. -/
def offlineClient : DockerClient :=
  { baseClient with
      pullImageResult := some (.client "registry unreachable")
      listImagesResult := .ok [] }

/-- C1: with pull=true and a successful pull, resolution succeeds
without attempting the local search; with pull=false and a successful
local search, resolution succeeds without attempting a pull; with
pull=false and the search failing with the `ErrLocalImageNotFound`
sentinel, a pull is attempted and its outcome is the resolution result;
and whenever both a pull error and a search error are present, the pull
error is the one returned. -/
theorem resolveImage_ordering (j : RunJob) (cl : DockerClient) :
    (parseBoolDiscard j.Pull = true → pullImage j cl = none →
      resolveImage j cl = (none, ⟨true, false⟩)) ∧
    (parseBoolDiscard j.Pull = false → searchLocalImage j cl = none →
      resolveImage j cl = (none, ⟨false, true⟩)) ∧
    (parseBoolDiscard j.Pull = false →
      searchLocalImage j cl = some .localImageNotFound →
      (resolveImage j cl).2.pullAttempted = true ∧
      (resolveImage j cl).1 = pullImage j cl) ∧
    (∀ pe se, pullImage j cl = some pe → searchLocalImage j cl = some se →
      (resolveImage j cl).2.pullAttempted = true →
      (resolveImage j cl).1 = some pe) := by
  refine ⟨fun hp hpull => ?_, fun hp hsearch => ?_, fun hp hsearch => ?_,
    fun pe se hpull hsearch hatt => ?_⟩
  · simp [resolveImage, hp, hpull]
  · simp [resolveImage, hp, hsearch]
  · cases hpi : pullImage j cl with
    | none => simp [resolveImage, hp, hsearch, hpi]
    | some pe => simp [resolveImage, hp, hsearch, hpi]
  · by_cases hp : parseBoolDiscard j.Pull
    · simp [resolveImage, hp, hpull, hsearch]
    · by_cases hse : se = Err.localImageNotFound
      · subst hse
        simp [resolveImage, hp, hsearch, hpull]
      · exfalso
        simp [resolveImage, hp, hsearch, hse] at hatt

/-- Witness for C1: each of the four resolution paths at a concrete job
and client. -/
theorem resolveImage_ordering_witness :
    resolveImage sampleJob baseClient = (none, ⟨true, false⟩) ∧
    resolveImage sampleJobNoPull baseClient = (none, ⟨false, true⟩) ∧
    ((resolveImage sampleJobNoPull offlineClient).2.pullAttempted = true ∧
      (resolveImage sampleJobNoPull offlineClient).1 =
        pullImage sampleJobNoPull offlineClient) ∧
    (resolveImage sampleJobNoPull offlineClient).1 =
      some (.pullFailed "busybox" (.client "registry unreachable")) := by
  refine ⟨?_, ?_, ?_, ?_⟩
  · exact (resolveImage_ordering sampleJob baseClient).1 (by decide) (by decide)
  · exact (resolveImage_ordering sampleJobNoPull baseClient).2.1 (by decide) (by decide)
  · exact (resolveImage_ordering sampleJobNoPull offlineClient).2.2.1 (by decide) (by decide)
  · exact (resolveImage_ordering sampleJobNoPull offlineClient).2.2.2
      (.pullFailed "busybox" (.client "registry unreachable")) .localImageNotFound
      (by decide) (by decide) (by decide)

/-- One poll reporting a running container advances the watch loop to
the next poll with `watchDuration` more elapsed time. -/
theorem watchLoop_step_running (inspect : Nat → Except Err ContainerState)
    (n r : Nat) (s : ContainerState)
    (hr : r + watchDuration ≤ maxProcessDuration)
    (hs : inspect n = .ok s) (hrun : s.Running = true) :
    watchLoop inspect n r = watchLoop inspect (n + 1) (r + watchDuration) := by
  rw [watchLoop]
  simp only [hs, hrun, dif_neg (Nat.not_lt.mpr hr), if_true]

/-- While every poll in a window reports a running container and the
elapsed time stays under the ceiling, the watch loop advances through
the whole window. -/
theorem watchLoop_advance (inspect : Nat → Except Err ContainerState) :
    ∀ (k n r : Nat),
      (∀ m, n ≤ m → m < n + k → ∃ s, inspect m = .ok s ∧ s.Running = true) →
      r + k * watchDuration ≤ maxProcessDuration →
      watchLoop inspect n r = watchLoop inspect (n + k) (r + k * watchDuration) := by
  intro k
  induction k with
  | zero =>
    intro n r hrun hb
    simp
  | succ k ih =>
    intro n r hrun hb
    obtain ⟨s, hs, hsrun⟩ := hrun n le_rfl (by omega)
    have hsplit : (k + 1) * watchDuration = k * watchDuration + watchDuration := by ring
    have h1 : r + watchDuration ≤ maxProcessDuration := by omega
    rw [watchLoop_step_running inspect n r s h1 hs hsrun]
    rw [ih (n + 1) (r + watchDuration)
      (fun m hm1 hm2 => hrun m (by omega) (by omega)) (by omega)]
    have e1 : n + 1 + k = n + (k + 1) := by omega
    have e2 : r + watchDuration + k * watchDuration = r + (k + 1) * watchDuration := by
      omega
    rw [e1, e2]

/-- C2: for every observed container state trace: when the polls before
poll `n` all report a running container and poll `n` (inside the 24h
ceiling) reports a stopped one, the watch result is the exit-code
classification — nil for exit code 0, the `ErrUnexpected` sentinel for
−1, and an error carrying the code for any other code; and when every
poll inside the ceiling reports a running container, the result is
`ErrMaxTimeRunning` — the trace's values at later poll indices are
universally quantified away, so no further inspection can influence the
result. -/
theorem watchContainer_classification (j : RunJob) (cl : DockerClient) :
    (∀ n s, (∀ m, m < n → ∃ sm, cl.inspectState m = .ok sm ∧ sm.Running = true) →
      cl.inspectState n = .ok s → s.Running = false →
      (n + 1) * watchDuration ≤ maxProcessDuration →
      watchContainer j cl = classifyExitCode s.ExitCode) ∧
    classifyExitCode 0 = none ∧
    classifyExitCode (-1) = some .unexpected ∧
    (∀ code : Int, code ≠ 0 → code ≠ -1 →
      classifyExitCode code = some (.nonZeroExit code)) ∧
    ((∀ m, m * watchDuration < maxProcessDuration →
        ∃ sm, cl.inspectState m = .ok sm ∧ sm.Running = true) →
      watchContainer j cl = some .maxTimeRunning) := by
  refine ⟨?_, rfl, rfl, ?_, ?_⟩
  · intro n s hprev hn hstop hbound
    have hsplit : (n + 1) * watchDuration = n * watchDuration + watchDuration := by ring
    rw [watchContainer]
    rw [watchLoop_advance cl.inspectState n 0 0
      (fun m hm1 hm2 => hprev m (by omega)) (by omega)]
    simp only [Nat.zero_add]
    have hc : ¬ (maxProcessDuration < n * watchDuration + watchDuration) := by omega
    rw [watchLoop]
    simp only [dif_neg hc, hn, hstop, Bool.false_eq_true, if_false]
  · intro code h0 h1
    simp [classifyExitCode, h0, h1]
  · intro hall
    rw [watchContainer]
    rw [watchLoop_advance cl.inspectState (maxProcessDuration / watchDuration) 0 0
      (fun m hm1 hm2 => hall m (by
        simp only [watchDuration, maxProcessDuration] at hm2 ⊢
        omega))
      (by simp only [watchDuration, maxProcessDuration]; omega)]
    rw [watchLoop]
    norm_num [watchDuration, maxProcessDuration]

/-- A client whose container stops at the first poll with exit code 7. -/
def stop7Client : DockerClient :=
  { baseClient with inspectState := fun _ => .ok ⟨false, 7⟩ }

/-- A client whose container reports running at every poll. -/
def runForeverClient : DockerClient :=
  { baseClient with inspectState := fun _ => .ok ⟨true, 0⟩ }

/-- Witness for C2: a container stopping with exit code 7 yields the
nonzero-exit error carrying 7, and a container that never stops yields
`ErrMaxTimeRunning`. -/
theorem watchContainer_classification_witness :
    watchContainer sampleJob stop7Client = some (.nonZeroExit 7) ∧
    watchContainer sampleJob runForeverClient = some .maxTimeRunning := by
  constructor
  · have h1 := (watchContainer_classification sampleJob stop7Client).1 0 ⟨false, 7⟩
      (fun m hm => absurd hm (Nat.not_lt_zero m)) rfl rfl (by decide)
    have h2 := (watchContainer_classification sampleJob stop7Client).2.2.2.1 7
      (by decide) (by decide)
    rw [h1, h2]
  · exact (watchContainer_classification sampleJob runForeverClient).2.2.2.2
      (fun m hm => ⟨⟨true, 0⟩, rfl, rfl⟩)

/-- Every error `connectNetworks` returns is a wrapped
network-connection failure. -/
theorem connectNetworks_error_shape (connect : String → Option Err) (cid : String) :
    ∀ (nws : List Network) (e : Err), (connectNetworks connect cid nws).1 = some e →
      ∃ cause, e = .connectFailed cause := by
  intro nws
  induction nws with
  | nil =>
    intro e he
    simp [connectNetworks] at he
  | cons nw rest ih =>
    intro e he
    cases hc : connect nw.ID with
    | some f =>
      simp [connectNetworks, hc] at he
      exact ⟨f, he.symm⟩
    | none =>
      rcases hrec : connectNetworks connect cid rest with ⟨res, tr⟩
      simp [connectNetworks, hc, hrec] at he
      exact ih e (by rw [hrec, he])

/-- C10: when a network name is configured and container creation
succeeded, a failure of the network-listing operation is silently
ignored — `buildContainer` returns the created container with no error
and attempts no network connection; and (still under a successful
creation) the only errors `buildContainer` can return are wrapped
connection failures. -/
theorem buildContainer_network_list_failure (j : RunJob) (cl : DockerClient)
    (c : Container) (hn : j.Network ≠ "") (hc : cl.createContainerResult = .ok c) :
    (∀ e, cl.listNetworksResult = .error e → buildContainer j cl = (.ok c, [])) ∧
    (∀ e, (buildContainer j cl).1 = .error e → ∃ cause, e = .connectFailed cause) := by
  constructor
  · intro e he
    simp [buildContainer, hc, hn, he]
  · intro e he
    cases hl : cl.listNetworksResult with
    | error f =>
      simp [buildContainer, hc, hn, hl] at he
    | ok nws =>
      rcases hcn : connectNetworks cl.connectNetworkResult c.ID nws with ⟨res, tr⟩
      cases res with
      | none => simp [buildContainer, hc, hn, hl, hcn] at he
      | some f =>
        simp [buildContainer, hc, hn, hl, hcn] at he
        exact connectNetworks_error_shape cl.connectNetworkResult c.ID nws e
          (by rw [hcn, he])

/-- A job with a network name configured. -/
def netJob : RunJob :=
  { sampleJob with Network := "backend" }

/-- A client whose network-listing operation fails. -/
def noNetListClient : DockerClient :=
  { baseClient with listNetworksResult := .error (.client "network api down") }

/-- A client that lists one network and fails to connect to it. -/
def connectFailClient : DockerClient :=
  { baseClient with
      listNetworksResult := .ok [⟨"n1"⟩]
      connectNetworkResult := fun _ => some (.client "connect denied") }

/-- Witness for C10: a failed network listing at a concrete client is
silently ignored, and a concrete connection failure is a wrapped
connection error. -/
theorem buildContainer_network_list_failure_witness :
    buildContainer netJob noNetListClient = (.ok ⟨"c1"⟩, []) ∧
    ∃ cause, Err.connectFailed (.client "connect denied") = .connectFailed cause := by
  constructor
  · exact (buildContainer_network_list_failure netJob noNetListClient ⟨"c1"⟩
      (by decide) rfl).1 (.client "network api down") rfl
  · exact (buildContainer_network_list_failure netJob connectFailClient ⟨"c1"⟩
      (by decide) rfl).2 (.connectFailed (.client "connect denied")) rfl

/-- The driver's return value is fully determined by the acquisition,
start, and watch phases; the log-retrieval and deletion steps only feed
the trace and the warnings. -/
theorem run_fst (j : RunJob) (cl : DockerClient) :
    (j.run cl).1 =
      (match (acquireContainer j cl).1 with
       | .error e => some e
       | .ok _ =>
         match cl.startContainerResult with
         | some e => some e
         | none => watchContainer j cl) := by
  unfold RunJob.run
  rcases hacq : acquireContainer j cl with ⟨ac, rt, conn⟩
  cases ac with
  | error e => simp
  | ok c =>
    cases hs : cl.startContainerResult with
    | some e => simp [hs]
    | none =>
      simp only [hs]
      by_cases hw : watchContainer j cl = some Err.unexpected
      · simp [hw]
      · simp only [if_neg hw]
        by_cases hcont : j.Container = ""
        · rcases hd : deleteContainer j cl with ⟨de, rm⟩
          simp [hcont, hd]
        · simp [hcont]

/-- C4: once a container was acquired and started, the driver returns
exactly the watch/classification error (nil on exit code 0); moreover,
for any job and client whatsoever, changing the outcomes of the
log-retrieval and container-removal operations never changes the
driver's return value. -/
theorem run_return_is_watch_error (j : RunJob) (cl : DockerClient) (c : Container)
    (hacq : (acquireContainer j cl).1 = .ok c)
    (hstart : cl.startContainerResult = none) :
    (j.run cl).1 = watchContainer j cl ∧
    ∀ lr rr, (j.run { cl with logsResult := lr, removeContainerResult := rr }).1 =
      (j.run cl).1 := by
  constructor
  · rw [run_fst]
    simp [hacq, hstart]
  · intro lr rr
    have e1 : acquireContainer j
        { cl with logsResult := lr, removeContainerResult := rr } =
        acquireContainer j cl := by
      simp [acquireContainer, resolveImage, pullImage, searchLocalImage,
        buildContainer, getContainer]
    have e2 : ({ cl with logsResult := lr, removeContainerResult := rr } :
        DockerClient).startContainerResult = cl.startContainerResult := rfl
    have e3 : watchContainer j
        { cl with logsResult := lr, removeContainerResult := rr } =
        watchContainer j cl := rfl
    rw [run_fst, run_fst, e1, e2, e3]

/-- Witness for C4 at a concrete job and client, with concretely failing
log-retrieval and removal outcomes. -/
theorem run_return_is_watch_error_witness :
    (sampleJob.run baseClient).1 = watchContainer sampleJob baseClient ∧
    (sampleJob.run { baseClient with
        logsResult := some (.client "x")
        removeContainerResult := some (.client "y") }).1 =
      (sampleJob.run baseClient).1 := by
  have h := run_return_is_watch_error sampleJob baseClient ⟨"c1"⟩ rfl rfl
  exact ⟨h.1, h.2 (some (.client "x")) (some (.client "y"))⟩

/-- A client whose container stops at the first poll with exit code −1. -/
def unexpectedClient : DockerClient :=
  { baseClient with inspectState := fun _ => .ok ⟨false, -1⟩ }

/-- C3 counterexample: on a run in which the container was created and
started but stopped with exit code −1, the driver returns the
`ErrUnexpected` sentinel immediately — log retrieval is NOT attempted
(and neither is the deferred deletion), refuting "log retrieval is
attempted regardless of how the watch/classification phase ended". -/
theorem run_unexpected_skips_logs :
    (sampleJob.run unexpectedClient).1 = some .unexpected ∧
    (sampleJob.run unexpectedClient).2.logsAttempted = false ∧
    (sampleJob.run unexpectedClient).2.deleteInvoked = false := by
  have hw : watchContainer sampleJob unexpectedClient = some .unexpected := by
    rw [watchContainer, watchLoop]
    norm_num [unexpectedClient, baseClient, watchDuration, maxProcessDuration,
      classifyExitCode]
  have hacq : acquireContainer sampleJob unexpectedClient =
      (.ok ⟨"c1"⟩, ⟨true, false⟩, []) := rfl
  have hstart : unexpectedClient.startContainerResult = none := rfl
  refine ⟨?_, ?_, ?_⟩ <;>
    simp [RunJob.run, hacq, hstart, hw, emptyTrace]

/-- C3 (amended): once a container was acquired and started, log
retrieval into the execution's streams is attempted for every watch
outcome other than the `ErrUnexpected` sentinel (on which the driver
returns without reaching the log-retrieval step); when attempted, a
log-retrieval failure only adds a warning and the driver still returns
the watch error. -/
theorem run_logs_best_effort (j : RunJob) (cl : DockerClient) (c : Container)
    (hacq : (acquireContainer j cl).1 = .ok c)
    (hstart : cl.startContainerResult = none)
    (hw : watchContainer j cl ≠ some .unexpected) :
    (j.run cl).2.logsAttempted = true ∧
    (j.run cl).1 = watchContainer j cl ∧
    (∀ e, cl.logsResult = some e →
      Warning.logsFailed e ∈ (j.run cl).2.warnings) := by
  unfold RunJob.run
  rcases ha : acquireContainer j cl with ⟨ac, rt, conn⟩
  rw [ha] at hacq
  simp only at hacq
  subst hacq
  simp only [hstart]
  by_cases hcont : j.Container = ""
  · rcases hd : deleteContainer j cl with ⟨de, rm⟩
    cases hlog : cl.logsResult with
    | none => simp [if_neg hw, hcont, hd, hlog]
    | some e => simp [if_neg hw, hcont, hd, hlog]
  · cases hlog : cl.logsResult with
    | none => simp [if_neg hw, hcont, hlog]
    | some e => simp [if_neg hw, hcont, hlog]

/-- A client whose log-retrieval operation fails. -/
def logsFailClient : DockerClient :=
  { baseClient with logsResult := some (.client "log stream broken") }

/-- Witness for C3 (amended) at a concrete job and client whose
log-retrieval operation fails. -/
theorem run_logs_best_effort_witness :
    (sampleJob.run logsFailClient).2.logsAttempted = true ∧
    (sampleJob.run logsFailClient).1 = watchContainer sampleJob logsFailClient ∧
    Warning.logsFailed (.client "log stream broken") ∈
      (sampleJob.run logsFailClient).2.warnings := by
  have hwn : watchContainer sampleJob logsFailClient = none := by
    rw [watchContainer, watchLoop]
    norm_num [logsFailClient, baseClient, watchDuration, maxProcessDuration,
      classifyExitCode]
  have h := run_logs_best_effort sampleJob logsFailClient ⟨"c1"⟩ rfl rfl
    (by rw [hwn]; exact Option.noConfusion)
  exact ⟨h.1, h.2.1, h.2.2 (.client "log stream broken") rfl⟩

/-- C5 counterexample: a Start–Stop–Start sequence (each call
succeeding) on a scheduler with one registered job and one global
middleware leaves that job with TWO copies of the global middleware, not
one. -/
theorem start_stop_start_double_merge :
    ((⟨[⟨"@daily", []⟩], [7], false⟩ : Scheduler Nat).start).1 = none ∧
    (((⟨[⟨"@daily", []⟩], [7], false⟩ : Scheduler Nat).start).2.stop).1 = none ∧
    ((((⟨[⟨"@daily", []⟩], [7], false⟩ : Scheduler Nat).start).2.stop).2.start).1 =
      none ∧
    ((((⟨[⟨"@daily", []⟩], [7], false⟩ : Scheduler Nat).start).2.stop).2.start).2.Jobs =
      [⟨"@daily", [7, 7]⟩] ∧
    ¬ ((((⟨[⟨"@daily", []⟩], [7], false⟩ :
        Scheduler Nat).start).2.stop).2.start).2.Jobs = [⟨"@daily", [7]⟩] := by
  refine ⟨rfl, rfl, rfl, rfl, ?_⟩
  decide

/-- C5 (amended): each successful `Start` merges the global middlewares
into every registered job exactly once — so after a single successful
`Start` every job carries one copy, and a Start–Stop–Start sequence
appends them twice. -/
theorem start_merges_once_per_start {α : Type} (s : Scheduler α) :
    ((s.start).1 = none →
      (s.start).2.Jobs = s.Jobs.map (fun j => j.use s.Middlewares)) ∧
    (s.isRunning = false → s.Jobs ≠ [] →
      ((((s.start).2.stop).2.start).2.Jobs =
        s.Jobs.map (fun j => (j.use s.Middlewares).use s.Middlewares))) := by
  constructor
  · intro h
    by_cases h1 : s.isRunning
    · simp [Scheduler.start, h1] at h
    · by_cases h2 : s.Jobs.length = 0
      · simp [Scheduler.start, h1, h2] at h
      · simp [Scheduler.start, h1, h2, Scheduler.mergeMiddlewares]
  · intro h1 h2
    have hlen : ¬ s.Jobs.length = 0 := by simpa using h2
    simp [Scheduler.start, Scheduler.stop, Scheduler.mergeMiddlewares, h1, hlen,
      List.map_map, Function.comp]

/-- Witness for C5 (amended): one Start merges once; Start–Stop–Start
merges twice. -/
theorem start_merges_once_per_start_witness :
    ((⟨[⟨"@daily", []⟩], [7], false⟩ : Scheduler Nat).start).2.Jobs =
      [⟨"@daily", [7]⟩] ∧
    ((((⟨[⟨"@daily", []⟩], [7], false⟩ :
        Scheduler Nat).start).2.stop).2.start).2.Jobs = [⟨"@daily", [7, 7]⟩] := by
  constructor
  · have h := (start_merges_once_per_start
      (⟨[⟨"@daily", []⟩], [7], false⟩ : Scheduler Nat)).1 rfl
    rw [h]
    rfl
  · have h := (start_merges_once_per_start
      (⟨[⟨"@daily", []⟩], [7], false⟩ : Scheduler Nat)).2 rfl (by decide)
    rw [h]
    rfl

/-- Witness for C9 at a concrete unparsable flag value. -/
theorem policy_flag_parse_discard_witness :
    parseBoolDiscard "yes" = false ∧
    parseBoolDiscard "" = false ∧
    deleteContainer ⟨"c", "root", false, "yes", "true", "img", "", "", []⟩
      (DockerClient.mk none (.ok []) (.error .localImageNotFound)
        (.error .localImageNotFound) none (fun _ => .ok ⟨false, 0⟩) (.ok [])
        (fun _ => none) none none) = (none, false) :=
  policy_flag_parse_discard "yes"
    ⟨"c", "root", false, "yes", "true", "img", "", "", []⟩ _ (by decide) (by decide)

end Ofelia
